import Mathlib

/-!
# Geo-Fence: verification of the geofence state-transition engine

Shallow embedding of the TypeScript/JavaScript sources of the Geo-Fence
repository.  Coordinates are modelled as rational numbers (every concrete
coordinate in the repository has at most four decimal places, so it is exact
in ℚ); JavaScript string truthiness (`if (s)` on a `string | null`) is
modelled by `truthyStr`, which is false exactly on `null` and the empty
string.
-/

attribute [local semireducible] Rat.ofScientific Rat.add Rat.mul Rat.inv Rat.sub

namespace GeoFence

/-- `src/domain/types.ts`: `Coordinate { lat, lng }`. -/
structure Coordinate where
  lat : ℚ
  lng : ℚ
deriving DecidableEq, Repr

/-- `src/domain/types.ts`: `Zone { id, name, polygon }`. -/
structure Zone where
  id : String
  name : String
  polygon : List Coordinate
deriving DecidableEq, Repr

/-- `src/domain/types.ts`: `VehicleState = 'inside' | 'outside'`. -/
inductive VehicleState where
  | inside
  | outside
deriving DecidableEq, Repr

/-- `src/domain/types.ts`: `VehicleEvent`. -/
structure VehicleEvent where
  vehicleId : String
  timestamp : String
  location : Coordinate
deriving DecidableEq, Repr

/-- `src/domain/types.ts`: `VehicleStatus`. -/
structure VehicleStatus where
  vehicleId : String
  currentZoneId : Option String
  state : VehicleState
  lastSeen : String
  location : Coordinate
deriving DecidableEq, Repr

/-- JavaScript truthiness of a `string | null` value: `null` and the empty
string are falsy, every other string is truthy. -/
def truthyStr : Option String → Bool
  | none => false
  | some s => if s = "" then false else true

/-- One iteration of the ray-casting loop in `isPointInPolygon`
(`src/domain/geofence.ts`): does the edge from vertex `vj` to vertex `vi`
straddle the point's latitude, with the edge's longitude at that latitude
(linearly interpolated) strictly exceeding the point's longitude? -/
def edgeCross (point vi vj : Coordinate) : Bool :=
  let xi := vi.lng
  let yi := vi.lat
  let xj := vj.lng
  let yj := vj.lat
  (decide (yi > point.lat) != decide (yj > point.lat))
    && decide (point.lng < (xj - xi) * (point.lat - yi) / (yj - yi) + xi)

/-- The crossing test of loop iteration `i` of `isPointInPolygon`: the edge
pairs vertex `i` with vertex `j = i - 1` (wrapping, so `i = 0` pairs with the
last vertex). -/
def crossesAt (point : Coordinate) (polygon : List Coordinate) (i : Nat) : Bool :=
  let j := if i = 0 then polygon.length - 1 else i - 1
  edgeCross point (polygon.getD i ⟨0, 0⟩) (polygon.getD j ⟨0, 0⟩)

/-- `src/domain/geofence.ts` `isPointInPolygon`: ray-casting; each qualifying
edge toggles the `inside` boolean, starting from `false`. -/
def isPointInPolygon (point : Coordinate) (polygon : List Coordinate) : Bool :=
  (List.range polygon.length).foldl
    (fun inside i => if crossesAt point polygon i then !inside else inside)
    false

/-- `src/domain/geofence.ts` `determineZone`: first zone (in list order)
whose polygon contains the location; `null` when none does. -/
def determineZone (location : Coordinate) : List Zone → Option String
  | [] => none
  | zone :: rest =>
      if isPointInPolygon location zone.polygon then some zone.id
      else determineZone location rest

/-- `src/config/zones.ts`: the configured zone catalog `ZONES`. -/
def ZONES : List Zone :=
  [ { id := "downtown", name := "City Center",
      polygon := [⟨51.5150, -0.1300⟩, ⟨51.5150, -0.1200⟩,
                  ⟨51.5050, -0.1200⟩, ⟨51.5050, -0.1300⟩] },
    { id := "hydepark", name := "Hyde Park",
      polygon := [⟨51.5110, -0.1750⟩, ⟨51.5110, -0.1600⟩,
                  ⟨51.5030, -0.1600⟩, ⟨51.5030, -0.1750⟩] },
    { id := "palace", name := "Buckingham Palace",
      polygon := [⟨51.5030, -0.1450⟩, ⟨51.5030, -0.1380⟩,
                  ⟨51.5000, -0.1380⟩, ⟨51.5000, -0.1450⟩] },
    { id := "eye", name := "London Eye",
      polygon := [⟨51.5040, -0.1200⟩, ⟨51.5040, -0.1180⟩,
                  ⟨51.5025, -0.1180⟩, ⟨51.5025, -0.1200⟩] },
    { id := "shard", name := "The Shard",
      polygon := [⟨51.5055, -0.0875⟩, ⟨51.5055, -0.0855⟩,
                  ⟨51.5035, -0.0855⟩, ⟨51.5035, -0.0875⟩] },
    { id := "tower", name := "Tower of London",
      polygon := [⟨51.5090, -0.0770⟩, ⟨51.5090, -0.0740⟩,
                  ⟨51.5070, -0.0740⟩, ⟨51.5070, -0.0770⟩] },
    { id := "museum", name := "British Museum",
      polygon := [⟨51.5200, -0.1280⟩, ⟨51.5200, -0.1250⟩,
                  ⟨51.5180, -0.1250⟩, ⟨51.5180, -0.1280⟩] },
    { id := "abbey", name := "Westminster Abbey",
      polygon := [⟨51.5000, -0.1290⟩, ⟨51.5000, -0.1270⟩,
                  ⟨51.4985, -0.1270⟩, ⟨51.4985, -0.1290⟩] },
    { id := "stpauls", name := "St Pauls Cathedral",
      polygon := [⟨51.5145, -0.1000⟩, ⟨51.5145, -0.0980⟩,
                  ⟨51.5130, -0.0980⟩, ⟨51.5130, -0.1000⟩] } ]

/-- The transition message built by the template literal
`Vehicle ${vehicleId} entered zone ${currentZoneId}` in
`src/domain/vehicleManager.ts`. -/
def enteredMsg (vehicleId zoneId : String) : String :=
  "Vehicle " ++ vehicleId ++ " entered zone " ++ zoneId

/-- The transition message built by the template literal
`Vehicle ${vehicleId} exited zone ${previousStatus.currentZoneId}`. -/
def exitedMsg (vehicleId zoneId : String) : String :=
  "Vehicle " ++ vehicleId ++ " exited zone " ++ zoneId

/-- The `VehicleManager`'s private `vehicles` map (`Map<string, VehicleStatus>`):
`Map.get` of an absent key is `undefined`, modelled as `none`. -/
def VehicleMap : Type := String → Option VehicleStatus

/-- The empty `vehicles` map a fresh `VehicleManager` starts with. -/
def emptyVehicles : VehicleMap := fun _ => none

/-- Result of `VehicleManager.processEvent`: the updated `vehicles` map (the
side effect of `this.vehicles.set`), the returned status and the returned
transition (`undefined` modelled as `none`). -/
structure ProcessResult where
  vehicles : VehicleMap
  status : VehicleStatus
  transition : Option String

/-- `src/domain/vehicleManager.ts` `VehicleManager.processEvent`.  The JS
truthiness tests `if (currentZoneId)` and `else if (previousStatus.currentZoneId)`
are modelled by `truthyStr`; the strict comparison
`previousStatus.currentZoneId !== currentZoneId` is plain `Option` inequality. -/
def processEvent (zones : List Zone) (vehicles : VehicleMap) (event : VehicleEvent) :
    ProcessResult :=
  let currentZoneId := determineZone event.location zones
  let state := if truthyStr currentZoneId then VehicleState.inside else VehicleState.outside
  let previousStatus := vehicles event.vehicleId
  let transition : Option String :=
    match previousStatus with
    | some prev =>
        if prev.currentZoneId ≠ currentZoneId then
          if truthyStr currentZoneId then
            some (enteredMsg event.vehicleId (currentZoneId.getD ""))
          else if truthyStr prev.currentZoneId then
            some (exitedMsg event.vehicleId (prev.currentZoneId.getD ""))
          else none
        else none
    | none =>
        if truthyStr currentZoneId then
          some (enteredMsg event.vehicleId (currentZoneId.getD ""))
        else none
  let newStatus : VehicleStatus :=
    { vehicleId := event.vehicleId
      currentZoneId := currentZoneId
      state := state
      lastSeen := event.timestamp
      location := event.location }
  { vehicles := fun id => if id = event.vehicleId then some newStatus else vehicles id
    status := newStatus
    transition := transition }

/-- `src/domain/vehicleManager.ts` `VehicleManager.getVehicleStatus`. -/
def getVehicleStatus (vehicles : VehicleMap) (vehicleId : String) : Option VehicleStatus :=
  vehicles vehicleId

/-! ## Dashboard debounce filter (`public/app.js`) -/

/-- `public/app.js`: `ZONE_CONFIRMATION_THRESHOLD = 3` — require 3 consecutive
updates to confirm a zone change (exit only). -/
def ZONE_CONFIRMATION_THRESHOLD : Nat := 3

/-- The module-level debounce state of the dashboard script:
`lastConfirmedZoneId`, `potentialNewZoneId`, `zoneConfirmationCounter`. -/
structure DebounceState where
  lastConfirmedZoneId : Option String
  potentialNewZoneId : Option String
  zoneConfirmationCounter : Nat
deriving DecidableEq, Repr

/-- Outcome of one debounce step of `updateUI`: the new module state, the
`displayZoneId` shown as the confirmed zone, and the `hasZoneChanged` flag. -/
structure DebounceStep where
  state : DebounceState
  displayZoneId : Option String
  hasZoneChanged : Bool
deriving DecidableEq, Repr

/-- The "Smart Debounce Logic" block of `updateUI` (`public/app.js`), fed with
`status.currentZoneId`.  `if (status.currentZoneId)` is JS truthiness
(`truthyStr`); `status.currentZoneId !== lastConfirmedZoneId` and
`lastConfirmedZoneId !== null` are strict comparisons. -/
def updateUIDebounce (s : DebounceState) (currentZoneId : Option String) : DebounceStep :=
  if truthyStr currentZoneId then
    if currentZoneId ≠ s.lastConfirmedZoneId then
      { state := { lastConfirmedZoneId := currentZoneId
                   potentialNewZoneId := none
                   zoneConfirmationCounter := 0 }
        displayZoneId := currentZoneId
        hasZoneChanged := true }
    else
      { state := { s with zoneConfirmationCounter := 0 }
        displayZoneId := s.lastConfirmedZoneId
        hasZoneChanged := false }
  else
    if s.lastConfirmedZoneId ≠ none then
      let counter := s.zoneConfirmationCounter + 1
      if counter ≥ ZONE_CONFIRMATION_THRESHOLD then
        { state := { s with lastConfirmedZoneId := none, zoneConfirmationCounter := 0 }
          displayZoneId := none
          hasZoneChanged := true }
      else
        { state := { s with zoneConfirmationCounter := counter }
          displayZoneId := s.lastConfirmedZoneId
          hasZoneChanged := false }
    else
      { state := s, displayZoneId := s.lastConfirmedZoneId, hasZoneChanged := false }

/-! ## Dashboard route-progress tracker (`public/app.js`) -/

/-- Per-journey route-progress state: the route's zone list, the advancing
step index, and whether the step at the current index carries the `active`
CSS class (the only piece of DOM state `updateRouteProgress` reads back;
`updateStepVisuals(i, isInside)` sets it to `isInside` and clears it from
every other step). -/
structure RouteProgressState where
  activeRouteZones : List Zone
  currentRouteIndex : Nat
  currentStepActive : Bool
deriving Repr

/-- `public/app.js` `updateRouteProgress(newZoneId)`; the
`document.getElementById(...).classList.contains('active')` test is the
`currentStepActive` flag. -/
def updateRouteProgress (s : RouteProgressState) (newZoneId : Option String) :
    RouteProgressState :=
  match s.activeRouteZones.get? s.currentRouteIndex with
  | none => s
  | some currentZone =>
      if newZoneId = some currentZone.id then
        { s with currentStepActive := true }
      else if newZoneId = none then
        if s.currentStepActive then
          { s with currentRouteIndex := s.currentRouteIndex + 1, currentStepActive := false }
        else s
      else
        match s.activeRouteZones.get? (s.currentRouteIndex + 1) with
        | some nextZone =>
            if newZoneId = some nextZone.id then
              { s with currentRouteIndex := s.currentRouteIndex + 1, currentStepActive := true }
            else s
        | none => s

/-! ## Mock router (`src/routes/mockRoutes.ts`) -/

/-- `getCentroid`: midpoint of the polygon's min/max latitude and longitude.
`Math.min(...)`/`Math.max(...)` over the (always nonempty) catalog polygons
are modelled by `List.min?`/`List.max?` with an irrelevant default. -/
def getCentroid (polygon : List Coordinate) : Coordinate :=
  let lats := polygon.map Coordinate.lat
  let lngs := polygon.map Coordinate.lng
  { lat := ((lats.min?).getD 0 + (lats.max?).getD 0) / 2
    lng := ((lngs.min?).getD 0 + (lngs.max?).getD 0) / 2 }

/-- `Math.hypot(point.lat - center.lat, point.lng - center.lng) < 0.005`,
stated exactly over ℚ by squaring both sides (Euclidean distance is strictly
below the radius iff the squared distance is). -/
def withinProximity (point center : Coordinate) : Bool :=
  decide ((point.lat - center.lat) ^ 2 + (point.lng - center.lng) ^ 2 < (0.005 : ℚ) ^ 2)

/-- The scan of `findZoneId` over a zone list. -/
def findZoneIdIn : List Zone → Coordinate → Option String
  | [], _ => none
  | zone :: rest, point =>
      if withinProximity point (getCentroid zone.polygon) then some zone.id
      else findZoneIdIn rest point

/-- `findZoneId` (`src/routes/mockRoutes.ts`): first zone of the global
`ZONES` catalog whose bounding-box centroid is within 0.005 degrees. -/
def findZoneId (point : Coordinate) : Option String :=
  findZoneIdIn ZONES point

/-- The hardcoded forward path polylines `PATHS` of `src/routes/mockRoutes.ts`
(before the reverse entries are synthesized). -/
def initialPATHS : List (String × List Coordinate) :=
  [ ("palace-abbey",
     [⟨51.5014, -0.1419⟩, ⟨51.5008, -0.1390⟩, ⟨51.5005, -0.1350⟩,
      ⟨51.5002, -0.1300⟩, ⟨51.4993, -0.1273⟩]),
    ("abbey-eye",
     [⟨51.4993, -0.1273⟩, ⟨51.5008, -0.1250⟩, ⟨51.5012, -0.1220⟩,
      ⟨51.5033, -0.1195⟩]),
    ("eye-stpauls",
     [⟨51.5033, -0.1195⟩, ⟨51.5080, -0.1180⟩, ⟨51.5110, -0.1170⟩,
      ⟨51.5130, -0.1100⟩, ⟨51.5138, -0.0984⟩]),
    ("stpauls-tower",
     [⟨51.5138, -0.0984⟩, ⟨51.5110, -0.0900⟩, ⟨51.5090, -0.0800⟩,
      ⟨51.5081, -0.0759⟩]),
    ("tower-shard",
     [⟨51.5081, -0.0759⟩, ⟨51.5055, -0.0754⟩, ⟨51.5045, -0.0865⟩]),
    ("shard-museum",
     [⟨51.5045, -0.0865⟩, ⟨51.5070, -0.0880⟩, ⟨51.5150, -0.0900⟩,
      ⟨51.5170, -0.1100⟩, ⟨51.5194, -0.1270⟩]),
    ("museum-hydepark",
     [⟨51.5194, -0.1270⟩, ⟨51.5160, -0.1300⟩, ⟨51.5140, -0.1500⟩,
      ⟨51.5120, -0.1600⟩, ⟨51.5073, -0.1657⟩]),
    ("hydepark-palace",
     [⟨51.5073, -0.1657⟩, ⟨51.5030, -0.1500⟩, ⟨51.5014, -0.1419⟩]) ]

/-- `reversePath`: `[...points].reverse()`. -/
def reversePath (points : List Coordinate) : List Coordinate :=
  points.reverse

/-- Structural recursion behind `keyParts`: split a character list at each
`'-'`, accumulating the current piece in reverse. -/
def splitDashAux : List Char → List Char → List String
  | [], acc => [String.mk acc.reverse]
  | c :: cs, acc =>
      if c = '-' then String.mk acc.reverse :: splitDashAux cs []
      else splitDashAux cs (c :: acc)

/-- `key.split('-')`. -/
def keyParts (key : String) : List String :=
  splitDashAux key.data []

/-- The full `PATHS` record after the module initializer added, for every
initial key `start-end`, the entry `end-start` with the reversed polyline. -/
def PATHS : List (String × List Coordinate) :=
  initialPATHS.foldl
    (fun acc kv =>
      match keyParts kv.1 with
      | [start, stop] => acc ++ [(stop ++ "-" ++ start, reversePath kv.2)]
      | _ => acc)
    initialPATHS

/-- `if (!GRAPH[k]) GRAPH[k] = []`. -/
def ensureKey (g : List (String × List String)) (k : String) : List (String × List String) :=
  if g.any (fun kv => kv.1 = k) then g else g ++ [(k, [])]

/-- `if (!GRAPH[k].includes(n)) GRAPH[k].push(n)`. -/
def pushNeighbor (g : List (String × List String)) (k n : String) :
    List (String × List String) :=
  g.map (fun kv => if kv.1 = k then (kv.1, if n ∈ kv.2 then kv.2 else kv.2 ++ [n]) else kv)

/-- The adjacency record `GRAPH`: first `ZONES.forEach(z => GRAPH[z.id] = [])`,
then for every initial `start-end` key both directions are pushed. -/
def GRAPH : List (String × List String) :=
  initialPATHS.foldl
    (fun g kv =>
      match keyParts kv.1 with
      | [start, stop] =>
          pushNeighbor (pushNeighbor (ensureKey (ensureKey g start) stop) start stop) stop start
      | _ => g)
    (ZONES.map (fun z => (z.id, [])))

/-- `GRAPH[id] || []`. -/
def neighborsOf (id : String) : List String :=
  ((GRAPH.lookup id).getD [])

/-- The BFS loop of `MockRouter.findPath`: FIFO queue of
`{id, path}` entries (`queue.shift()` pops the front, pushes go to the back);
the target test precedes the visited test.  The loop provably performs at most
`1 + Σ degrees` iterations on the fixed `GRAPH`, so the fuel argument (1000)
is never exhausted; it only makes the recursion structural. -/
def bfsLoop (endId : String) : Nat → List (String × List String) → List String →
    Option (List String)
  | 0, _, _ => none
  | _ + 1, [], _ => none
  | fuel + 1, (id, path) :: rest, visited =>
      if id = endId then some path
      else if id ∈ visited then bfsLoop endId fuel rest visited
      else
        bfsLoop endId fuel
          (rest ++ (neighborsOf id).map (fun n => (n, path ++ [n])))
          (visited ++ [id])

/-- The zone-id path computed by `MockRouter.findPath` (the value of `path`
at the `return this.buildCoordinatePath(startId, path)` site). -/
def findPathZones (startId endId : String) : Option (List String) :=
  if startId = endId then some []
  else bfsLoop endId 1000 [(startId, [])] []

/-- `MockRouter.buildCoordinatePath`: concatenate `PATHS[current-next]` for
each consecutive pair, silently skipping missing keys. -/
def buildCoordinatePath (startId : String) (zonePath : List String) : List Coordinate :=
  (zonePath.foldl
    (fun (acc : List Coordinate × String) nextId =>
      match PATHS.lookup (acc.2 ++ "-" ++ nextId) with
      | some pts => (acc.1 ++ pts, nextId)
      | none => (acc.1, nextId))
    ([], startId)).1

/-- `MockRouter.findPath`: `null` when BFS finds no path, else the
concatenated coordinate polyline of the discovered zone path. -/
def findPath (startId endId : String) : Option (List Coordinate) :=
  (findPathZones startId endId).map (buildCoordinatePath startId)

/-- One iteration of the `MockRouter.getRoute` loop, for the consecutive
waypoint pair `(start, stop)`: if both endpoints resolve to zone ids
(JS truthiness on the `string | null` results) and a graph path exists, its
polyline is appended; otherwise the raw two-point segment is. -/
def routeSegment (start stop : Coordinate) : List Coordinate :=
  let startId := findZoneId start
  let stopId := findZoneId stop
  if truthyStr startId && truthyStr stopId then
    match findPath (startId.getD "") (stopId.getD "") with
    | some seg => seg
    | none => [start, stop]
  else [start, stop]

/-- `MockRouter.getRoute(waypoints)`: concatenation of the per-consecutive-pair
segments (the loop runs `i` from `0` to `waypoints.length - 2`; zipping the
list with its tail enumerates exactly those pairs). -/
def getRoute (waypoints : List Coordinate) : List Coordinate :=
  (waypoints.zip waypoints.tail).foldl (fun acc p => acc ++ routeSegment p.1 p.2) []

/-! ## Route handler decision (`api/route.ts` handler using `MockRouter`) -/

/-- The three observable outcomes of the route handler's control flow before
any external I/O: a 400 for fewer than 2 waypoints; answering with the
`MockRouter` polyline; or falling through to the external OSRM lookup. -/
inductive RouteDecision where
  | badRequest
  | useMock (route : List Coordinate)
  | fallbackExternal
deriving DecidableEq, Repr

/-- The decision logic of the route handler: the `MockRouter` polyline is used
iff `mockRoute.length > waypoints.length * 2`; otherwise the handler proceeds
to the external routing lookup. -/
def routeDecision (waypoints : List Coordinate) : RouteDecision :=
  if waypoints.length < 2 then RouteDecision.badRequest
  else
    let mockRoute := getRoute waypoints
    if mockRoute.length > waypoints.length * 2 then RouteDecision.useMock mockRoute
    else RouteDecision.fallbackExternal

/-! ## Spec-side definitions (for refinement comparisons) -/

/-- The zone ids of the catalog, in order. -/
def zoneIds : List String :=
  ZONES.map Zone.id

/-- Spec-side: zone ids reachable from `s` along `GRAPH` edges in at most `n`
hops ("breadth-first search over zone ids, hop count the only cost metric"). -/
def specWithin (s : String) : Nat → List String
  | 0 => [s]
  | n + 1 =>
      let prev := specWithin s n
      (prev ++ prev.flatMap neighborsOf).dedup

/-- Spec-side: minimal hop count from `s` to `e`, `none` when unreachable.
`GRAPH` has 9 vertices, so searching radii `0..9` is exhaustive. -/
def specMinHopDist (s e : String) : Option Nat :=
  (List.range 10).find? (fun n => (specWithin s n).contains e)

/-- Spec-side: is `path` a walk along `GRAPH` edges starting at `s`? -/
def isGraphWalk (s : String) (path : List String) : Bool :=
  (path.foldl (fun (acc : Bool × String) n => (acc.1 && (neighborsOf acc.2).contains n, n))
    (true, s)).1

/-- Spec-side ("Modelled from the spec": reconstruct the polyline by
concatenating, in order, the edge polyline for each consecutive zone pair,
with every lookup by the ordered pair `(current, next)` required to succeed). -/
def specConcatPolylines : String → List String → Option (List Coordinate)
  | _, [] => some []
  | cur, nxt :: rest =>
      match PATHS.lookup (cur ++ "-" ++ nxt), specConcatPolylines nxt rest with
      | some pts, some restPts => some (pts ++ restPts)
      | _, _ => none

/-! ## Helper lemmas -/

/-- `determineZone` is the first-match scan `List.find?`, projected to the id. -/
theorem determineZone_eq_find? (location : Coordinate) (zones : List Zone) :
    determineZone location zones =
      (zones.find? (fun z => isPointInPolygon location z.polygon)).map Zone.id := by
  induction zones with
  | nil => rfl
  | cons z zs ih =>
      by_cases h : isPointInPolygon location z.polygon
      · rw [List.find?_cons_of_pos _ (by simpa using h)]
        simp [determineZone, h]
      · rw [List.find?_cons_of_neg _ (by simpa using h)]
        simp [determineZone, h, ih]

/-- A resolved zone id comes from a zone of the list. -/
theorem determineZone_mem (location : Coordinate) (zones : List Zone) (zid : String)
    (h : determineZone location zones = some zid) : ∃ z ∈ zones, z.id = zid := by
  rw [determineZone_eq_find?] at h
  obtain ⟨z, hz, rfl⟩ := Option.map_eq_some'.mp h
  exact ⟨z, List.mem_of_find?_eq_some hz, rfl⟩

/-- The toggle fold of the ray-casting loop stays `false` when no iteration's
condition fires. -/
theorem foldl_toggle_false (c : Nat → Bool) :
    ∀ l : List Nat, (∀ i ∈ l, c i = false) →
      l.foldl (fun inside i => if c i then !inside else inside) false = false
  | [], _ => rfl
  | i :: is, h => by
      have hi : c i = false := h i (List.mem_cons_self i is)
      simp only [List.foldl_cons, hi, if_false, Bool.false_eq_true]
      exact foldl_toggle_false c is (fun j hj => h j (List.mem_cons_of_mem i hj))

/-- The crossing test is symmetric in the two edge endpoints: the edge
`(v, w)` and the edge `(w, v)` qualify together. -/
theorem edgeCross_comm (p v w : Coordinate) : edgeCross p v w = edgeCross p w v := by
  unfold edgeCross
  by_cases h1 : v.lat > p.lat <;> by_cases h2 : w.lat > p.lat
  · simp [h1, h2]
  · have hne : w.lat - v.lat ≠ 0 := by
      intro hc
      have hew : w.lat = v.lat := sub_eq_zero.mp hc
      exact h2 (by rw [hew]; exact h1)
    have hne' : v.lat - w.lat ≠ 0 := by
      intro hc
      have hew : v.lat = w.lat := sub_eq_zero.mp hc
      exact hne (by rw [hew]; ring)
    have key : (w.lng - v.lng) * (p.lat - v.lat) / (w.lat - v.lat) + v.lng
        = (v.lng - w.lng) * (p.lat - w.lat) / (v.lat - w.lat) + w.lng := by
      field_simp
      ring
    simp [h1, h2, key]
  · have hne : w.lat - v.lat ≠ 0 := by
      intro hc
      have hew : w.lat = v.lat := sub_eq_zero.mp hc
      exact h1 (by rw [← hew]; exact h2)
    have hne' : v.lat - w.lat ≠ 0 := by
      intro hc
      have hew : v.lat = w.lat := sub_eq_zero.mp hc
      exact hne (by rw [hew]; ring)
    have key : (w.lng - v.lng) * (p.lat - v.lat) / (w.lat - v.lat) + v.lng
        = (v.lng - w.lng) * (p.lat - w.lat) / (v.lat - w.lat) + w.lng := by
      field_simp
      ring
    simp [h1, h2, key]
  · simp [h1, h2]

/-- An edge from a vertex to itself never qualifies. -/
theorem edgeCross_self (p v : Coordinate) : edgeCross p v v = false := by
  simp [edgeCross]

/-- A `getD` read at an in-range index lands in the list. -/
theorem getD_mem_of_lt (poly : List Coordinate) (i : Nat) (hi : i < poly.length) :
    poly.getD i ⟨0, 0⟩ ∈ poly := by
  rw [List.getD_eq_getElem?_getD, List.getElem?_eq_getElem hi]
  exact List.getElem_mem hi

/-- If every vertex sits at latitude `y`, no loop iteration's crossing test
fires: both edge endpoints fail the straddle test together. -/
theorem crossesAt_constLat (p : Coordinate) (poly : List Coordinate) (y : ℚ)
    (h : ∀ c ∈ poly, c.lat = y) (i : Nat) (hi : i < poly.length) :
    crossesAt p poly i = false := by
  have hlen : 0 < poly.length := Nat.lt_of_le_of_lt (Nat.zero_le i) hi
  unfold crossesAt
  have hj : (if i = 0 then poly.length - 1 else i - 1) < poly.length := by
    by_cases h0 : i = 0
    · simpa [h0] using Nat.sub_lt hlen Nat.one_pos
    · simp only [h0, if_false]
      exact Nat.lt_of_le_of_lt (Nat.sub_le i 1) hi
  have hvi : (poly.getD i ⟨0, 0⟩).lat = y := h _ (getD_mem_of_lt poly i hi)
  have hvj : (poly.getD (if i = 0 then poly.length - 1 else i - 1) ⟨0, 0⟩).lat = y :=
    h _ (getD_mem_of_lt poly _ hj)
  simp only [edgeCross]
  rw [hvi, hvj]
  simp

/-- The straddle test forces the interpolation divisor to be nonzero. -/
theorem straddle_divisor_ne (p vi vj : Coordinate)
    (h : (decide (vi.lat > p.lat) != decide (vj.lat > p.lat)) = true) :
    vj.lat - vi.lat ≠ 0 := by
  intro hc
  have hew : vj.lat = vi.lat := sub_eq_zero.mp hc
  rw [hew, bne_self_eq_false] at h
  exact Bool.false_ne_true h

/-- `findZoneIdIn` is the first-match scan `List.find?` over the proximity
test, projected to the id. -/
theorem findZoneIdIn_eq_find? (point : Coordinate) (zones : List Zone) :
    findZoneIdIn zones point =
      (zones.find? (fun z => withinProximity point (getCentroid z.polygon))).map Zone.id := by
  induction zones with
  | nil => rfl
  | cons z zs ih =>
      by_cases h : withinProximity point (getCentroid z.polygon)
      · rw [List.find?_cons_of_pos _ (by simpa using h)]
        simp [findZoneIdIn, h]
      · rw [List.find?_cons_of_neg _ (by simpa using h)]
        simp [findZoneIdIn, h, ih]

/-- One `updateRouteProgress` call leaves the index unchanged or adds one. -/
theorem updateRouteProgress_index_step (s : RouteProgressState) (o : Option String) :
    (updateRouteProgress s o).currentRouteIndex = s.currentRouteIndex ∨
    (updateRouteProgress s o).currentRouteIndex = s.currentRouteIndex + 1 := by
  unfold updateRouteProgress
  cases h : s.activeRouteZones.get? s.currentRouteIndex with
  | none => exact Or.inl rfl
  | some z =>
      by_cases h1 : o = some z.id
      · simp [h1]
      · by_cases h2 : o = none
        · by_cases h3 : s.currentStepActive = true <;> simp [h1, h2, h3]
        · cases hn : s.activeRouteZones.get? (s.currentRouteIndex + 1) with
          | none => simp [h1, h2, hn]
          | some nz =>
              by_cases h4 : o = some nz.id
              · by_cases h5 : nz.id = z.id <;> simp [h1, h2, hn, h4, h5]
              · simp [h1, h2, hn, h4]

/-- Folding any observation sequence never decreases the index. -/
theorem foldl_updateRouteProgress_mono (os : List (Option String)) :
    ∀ s : RouteProgressState,
      s.currentRouteIndex ≤ (os.foldl updateRouteProgress s).currentRouteIndex := by
  induction os with
  | nil => intro s; exact Nat.le_refl _
  | cons o rest ih =>
      intro s
      refine Nat.le_trans ?_ (ih (updateRouteProgress s o))
      rcases updateRouteProgress_index_step s o with h | h <;> omega

/-! ## Claim theorems -/

/-- **C4**: for every point and every ordered list of zones, zone resolution
returns the id of the first zone in list order whose polygon contains the
point according to the ray-casting containment test, and returns `none` when
no zone's polygon contains the point; with geometrically overlapping zones the
earlier-listed zone's id is returned (every zone listed before the match fails
the containment test). -/
theorem c4_determineZone_first_match (location : Coordinate) (zones : List Zone) :
    (∀ zid, determineZone location zones = some zid ↔
      ∃ pre z suf, zones = pre ++ z :: suf ∧ z.id = zid ∧
        isPointInPolygon location z.polygon = true ∧
        ∀ w ∈ pre, isPointInPolygon location w.polygon = false) ∧
    (determineZone location zones = none ↔
      ∀ z ∈ zones, isPointInPolygon location z.polygon = false) := by
  constructor
  · intro zid
    rw [determineZone_eq_find?, Option.map_eq_some']
    constructor
    · rintro ⟨z, hz, rfl⟩
      rw [List.find?_eq_some] at hz
      obtain ⟨hpz, pre, suf, rfl, hall⟩ := hz
      exact ⟨pre, z, suf, rfl, rfl, by simpa using hpz,
        fun w hw => by simpa using hall w hw⟩
    · rintro ⟨pre, z, suf, rfl, rfl, hin, hpre⟩
      refine ⟨z, List.find?_eq_some.mpr ⟨by simpa using hin, pre, suf, rfl, ?_⟩, rfl⟩
      intro a ha
      simpa using hpre a ha
  · rw [determineZone_eq_find?, Option.map_eq_none', List.find?_eq_none]
    constructor
    · intro h z hz
      simpa using h z hz
    · intro h z hz
      simpa using h z hz

/-- **C10**: `isPointInPolygon` is total in this embedding for every point and
vertex list; on degenerate polygons — empty, one vertex, two vertices, or all
vertices at a single latitude — it returns `false`; and the interpolation
divisor `yj - yi` is nonzero whenever the straddle test
`(yi > point.lat) !== (yj > point.lat)` guarding the division holds, so the
division-by-zero case is unreachable. -/
theorem c10_isPointInPolygon_degenerate_safe :
    (∀ p : Coordinate, isPointInPolygon p [] = false) ∧
    (∀ p v : Coordinate, isPointInPolygon p [v] = false) ∧
    (∀ p v w : Coordinate, isPointInPolygon p [v, w] = false) ∧
    (∀ (p : Coordinate) (poly : List Coordinate) (y : ℚ),
      (∀ c ∈ poly, c.lat = y) → isPointInPolygon p poly = false) ∧
    (∀ p vi vj : Coordinate,
      (decide (vi.lat > p.lat) != decide (vj.lat > p.lat)) = true →
        vj.lat - vi.lat ≠ 0) := by
  refine ⟨fun p => rfl, ?_, ?_, ?_, straddle_divisor_ne⟩
  · intro p v
    simp [isPointInPolygon, List.range_succ, crossesAt, edgeCross_self]
  · intro p v w
    have h := edgeCross_comm p w v
    cases hc : edgeCross p v w with
    | false =>
        simp [isPointInPolygon, List.range_succ, crossesAt, hc, h.trans hc]
    | true =>
        simp [isPointInPolygon, List.range_succ, crossesAt, hc, h.trans hc]
  · intro p poly y h
    unfold isPointInPolygon
    apply foldl_toggle_false
    intro i hi
    exact crossesAt_constLat p poly y h i (List.mem_range.mp hi)

/-- **C1**: transition classification of `processEvent` (over any catalog of
nonempty zone ids, as configured): with no stored previous status, resolving
to zone `z` yields the "entered zone z" descriptor and resolving to no zone
yields no transition; with a previous status, an unchanged zone id (including
both `none`) yields no transition, a changed non-null zone id yields the
"entered zone z" descriptor (no separate exit is surfaced for a direct
zone-to-zone move — the transition is exactly the entry descriptor), and a
change from a (nonempty) zone id to `none` yields the "exited zone" descriptor
for the previous zone. -/
theorem c1_processEvent_transitions (zones : List Zone) (vehicles : VehicleMap)
    (event : VehicleEvent) (hz : ∀ z ∈ zones, z.id ≠ "") :
    (vehicles event.vehicleId = none →
      (∀ z, determineZone event.location zones = some z →
        (processEvent zones vehicles event).transition
          = some (enteredMsg event.vehicleId z)) ∧
      (determineZone event.location zones = none →
        (processEvent zones vehicles event).transition = none)) ∧
    (∀ ps, vehicles event.vehicleId = some ps →
      (ps.currentZoneId = determineZone event.location zones →
        (processEvent zones vehicles event).transition = none) ∧
      (∀ z, determineZone event.location zones = some z → ps.currentZoneId ≠ some z →
        (processEvent zones vehicles event).transition
          = some (enteredMsg event.vehicleId z)) ∧
      (∀ pz, determineZone event.location zones = none → ps.currentZoneId = some pz →
        pz ≠ "" →
        (processEvent zones vehicles event).transition
          = some (exitedMsg event.vehicleId pz))) := by
  constructor
  · intro hnone
    constructor
    · intro z hdz
      obtain ⟨zz, hzz, rfl⟩ := determineZone_mem _ _ _ hdz
      simp [processEvent, hnone, hdz, truthyStr, hz zz hzz]
    · intro hdz
      simp [processEvent, hnone, hdz, truthyStr]
  · intro ps hps
    refine ⟨?_, ?_, ?_⟩
    · intro heq
      simp [processEvent, hps, ← heq]
    · intro z hdz hne
      obtain ⟨zz, hzz, rfl⟩ := determineZone_mem _ _ _ hdz
      simp [processEvent, hps, hdz, hne, truthyStr, hz zz hzz]
    · intro pz hdz hpz hpzne
      simp [processEvent, hps, hdz, hpz, truthyStr, hpzne]

/-- Witness for C1 at a concrete input: a fresh vehicle whose first event is
inside the palace zone gets the palace entry descriptor. -/
theorem c1_processEvent_transitions_witness :
    (processEvent ZONES emptyVehicles ⟨"v1", "t1", ⟨51.5014, -0.1419⟩⟩).transition
      = some (enteredMsg "v1" "palace") :=
  ((c1_processEvent_transitions ZONES emptyVehicles ⟨"v1", "t1", ⟨51.5014, -0.1419⟩⟩
    (by decide)).1 rfl).1 "palace" (by decide)

/-- **C2**: with threshold 3, after an inside-`Z` observation the session has
`lastConfirmedZoneId = Z` and counter 0; two raw outside observations report
no change and keep reporting `Z` (counters 1 then 2); a third observation
inside `Z` keeps `Z` confirmed and resets the pending-exit counter to 0
without reporting a change, whereas a third consecutive outside observation
confirms the exit exactly then: `lastConfirmedZoneId` becomes `none`, the
counter resets to 0, and a change is reported. -/
theorem c2_exit_debounce (Z : String) (hZ : Z ≠ "") :
    (∀ s : DebounceState,
      (updateUIDebounce s (some Z)).state.lastConfirmedZoneId = some Z ∧
      (updateUIDebounce s (some Z)).state.zoneConfirmationCounter = 0) ∧
    (∀ t : DebounceState, t.lastConfirmedZoneId = some Z → t.zoneConfirmationCounter = 0 →
      (updateUIDebounce t none).hasZoneChanged = false ∧
      (updateUIDebounce t none).displayZoneId = some Z ∧
      (updateUIDebounce t none).state.lastConfirmedZoneId = some Z ∧
      (updateUIDebounce t none).state.zoneConfirmationCounter = 1 ∧
      (updateUIDebounce (updateUIDebounce t none).state none).hasZoneChanged = false ∧
      (updateUIDebounce (updateUIDebounce t none).state none).displayZoneId = some Z ∧
      (updateUIDebounce (updateUIDebounce t none).state none).state.lastConfirmedZoneId
        = some Z ∧
      (updateUIDebounce (updateUIDebounce t none).state none).state.zoneConfirmationCounter
        = 2 ∧
      (updateUIDebounce (updateUIDebounce (updateUIDebounce t none).state none).state
        (some Z)).state.lastConfirmedZoneId = some Z ∧
      (updateUIDebounce (updateUIDebounce (updateUIDebounce t none).state none).state
        (some Z)).state.zoneConfirmationCounter = 0 ∧
      (updateUIDebounce (updateUIDebounce (updateUIDebounce t none).state none).state
        (some Z)).hasZoneChanged = false ∧
      (updateUIDebounce (updateUIDebounce (updateUIDebounce t none).state none).state
        none).hasZoneChanged = true ∧
      (updateUIDebounce (updateUIDebounce (updateUIDebounce t none).state none).state
        none).displayZoneId = none ∧
      (updateUIDebounce (updateUIDebounce (updateUIDebounce t none).state none).state
        none).state.lastConfirmedZoneId = none ∧
      (updateUIDebounce (updateUIDebounce (updateUIDebounce t none).state none).state
        none).state.zoneConfirmationCounter = 0) := by
  constructor
  · intro s
    by_cases h : (some Z : Option String) = s.lastConfirmedZoneId
    · simp [updateUIDebounce, truthyStr, hZ, h]
    · simp [updateUIDebounce, truthyStr, hZ, h]
  · intro t h1 h2
    simp [updateUIDebounce, truthyStr, hZ, h1, h2, ZONE_CONFIRMATION_THRESHOLD]

/-- Witness for C2 at a concrete session: starting confirmed in "palace"
with counter 0, three consecutive outside observations confirm the exit. -/
theorem c2_exit_debounce_witness :
    (updateUIDebounce (updateUIDebounce (updateUIDebounce
        ⟨some "palace", none, 0⟩ none).state none).state none).hasZoneChanged = true := by
  have h := (c2_exit_debounce "palace" (by decide)).2 ⟨some "palace", none, 0⟩ rfl rfl
  obtain ⟨-, -, -, -, -, -, -, -, -, -, -, hx, -, -, -⟩ := h
  exact hx

/-- **C3**: the end-to-end scenario — the event at `(51.0, 0.0)` is outside
with no transition; the following event at `(51.5014, -0.1419)` is inside,
resolves to "palace" and produces the palace entry descriptor; a subsequent
status query for "v1" reports `currentZoneId = "palace"`. -/
theorem c3_end_to_end_scenario :
    (processEvent ZONES emptyVehicles ⟨"v1", "t1", ⟨51.0, 0.0⟩⟩).status.state
        = VehicleState.outside ∧
    (processEvent ZONES emptyVehicles ⟨"v1", "t1", ⟨51.0, 0.0⟩⟩).transition = none ∧
    (processEvent ZONES
        (processEvent ZONES emptyVehicles ⟨"v1", "t1", ⟨51.0, 0.0⟩⟩).vehicles
        ⟨"v1", "t2", ⟨51.5014, -0.1419⟩⟩).status.state = VehicleState.inside ∧
    (processEvent ZONES
        (processEvent ZONES emptyVehicles ⟨"v1", "t1", ⟨51.0, 0.0⟩⟩).vehicles
        ⟨"v1", "t2", ⟨51.5014, -0.1419⟩⟩).status.currentZoneId = some "palace" ∧
    (processEvent ZONES
        (processEvent ZONES emptyVehicles ⟨"v1", "t1", ⟨51.0, 0.0⟩⟩).vehicles
        ⟨"v1", "t2", ⟨51.5014, -0.1419⟩⟩).transition = some (enteredMsg "v1" "palace") ∧
    (getVehicleStatus
        (processEvent ZONES
          (processEvent ZONES emptyVehicles ⟨"v1", "t1", ⟨51.0, 0.0⟩⟩).vehicles
          ⟨"v1", "t2", ⟨51.5014, -0.1419⟩⟩).vehicles "v1").map VehicleStatus.currentZoneId
        = some (some "palace") := by
  decide

/-- **C5**: over the fixed route graph, for every pair of zone ids: equal
endpoints give the empty polyline; the query is `none` exactly when no graph
path connects them (the reachability balls stabilize at radius 9, so the
radius-10 search is exhaustive); and a successful query returns the
concatenation, in order, of the edge polylines looked up by ordered pair
along the BFS zone path, which is a graph walk from start ending at the
target whose hop count equals the minimal hop distance. -/
theorem c5_findPath_bfs_shortest :
    ∀ s ∈ zoneIds, ∀ e ∈ zoneIds,
      (s = e → findPath s e = some []) ∧
      (findPath s e = none ↔ specMinHopDist s e = none) ∧
      (∀ x ∈ zoneIds, (specWithin s 10).contains x = (specWithin s 9).contains x) ∧
      (findPathZones s e ≠ none →
        isGraphWalk s ((findPathZones s e).getD []) = true ∧
        ((findPathZones s e).getD []).getLastD s = e ∧
        specMinHopDist s e = some ((findPathZones s e).getD []).length ∧
        findPath s e = some (buildCoordinatePath s ((findPathZones s e).getD [])) ∧
        specConcatPolylines s ((findPathZones s e).getD []) =
          some (buildCoordinatePath s ((findPathZones s e).getD []))) := by
  decide

/-- Witness for C5 at a concrete pair. -/
theorem c5_findPath_bfs_shortest_witness :
    findPath "palace" "tower" = none ↔ specMinHopDist "palace" "tower" = none :=
  (c5_findPath_bfs_shortest "palace" (by decide) "tower" (by decide)).2.1

/-- **C6 counterexample**: the eye→museum query returns a polyline, but the
museum→eye query does not return its reverse (BFS breaks the 4-hop tie
differently in the two directions, taking opposite sides of the cycle). -/
theorem c6_reverse_symmetry_counterexample :
    findPath "eye" "museum" ≠ none ∧
    findPath "museum" "eye" ≠ (findPath "eye" "museum").map List.reverse := by
  decide

/-- **C6 (amended)**: whenever the A→B query returns a polyline, the B→A
query also returns one — for every pair of zones in the route graph.  The
reverse-ordered-coordinate-sequence property holds for every pair except the
three antipodal pairs of the 8-cycle (`eye`/`museum`, `abbey`/`shard`,
`stpauls`/`hydepark`); for those, both directions return the polylines of the
two different equal-hop sides of the cycle, pinned here as the exact BFS zone
paths (each endpoint's first-listed neighbor wins the tie, and the two
interiors are disjoint). -/
theorem c6_reverse_symmetry_amended :
    (∀ a ∈ zoneIds, ∀ b ∈ zoneIds, findPath a b ≠ none → findPath b a ≠ none) ∧
    (∀ a ∈ zoneIds, ∀ b ∈ zoneIds,
      (a, b) ∉ [("eye", "museum"), ("museum", "eye"), ("abbey", "shard"), ("shard", "abbey"),
                ("stpauls", "hydepark"), ("hydepark", "stpauls")] →
        findPath a b ≠ none →
          findPath b a = (findPath a b).map List.reverse) ∧
    findPathZones "eye" "museum" = some ["abbey", "palace", "hydepark", "museum"] ∧
    findPathZones "museum" "eye" = some ["shard", "tower", "stpauls", "eye"] ∧
    findPathZones "abbey" "shard" = some ["palace", "hydepark", "museum", "shard"] ∧
    findPathZones "shard" "abbey" = some ["tower", "stpauls", "eye", "abbey"] ∧
    findPathZones "stpauls" "hydepark" = some ["eye", "abbey", "palace", "hydepark"] ∧
    findPathZones "hydepark" "stpauls" = some ["museum", "shard", "tower", "stpauls"] := by
  decide

/-- Witness for the amended C6 at a concrete pair. -/
theorem c6_reverse_symmetry_amended_witness :
    findPath "tower" "palace" = (findPath "palace" "tower").map List.reverse :=
  c6_reverse_symmetry_amended.2.1 "palace" (by decide) "tower" (by decide) (by decide)
    (by decide)

/-- **C7**: one `updateRouteProgress` call either keeps the step index or
increments it by one; consequently the index never decreases across any
sequence of progress updates with any confirmed zone ids. -/
theorem c7_route_progress_monotone :
    (∀ (s : RouteProgressState) (o : Option String),
      (updateRouteProgress s o).currentRouteIndex = s.currentRouteIndex ∨
      (updateRouteProgress s o).currentRouteIndex = s.currentRouteIndex + 1) ∧
    (∀ (s : RouteProgressState) (os : List (Option String)),
      s.currentRouteIndex ≤ (os.foldl updateRouteProgress s).currentRouteIndex) :=
  ⟨updateRouteProgress_index_step, fun s os => foldl_updateRouteProgress_mono os s⟩

/-- **C8 counterexample**: for the two waypoints at the abbey and eye
centroids the aggregate graph polyline has exactly `2 ×` the waypoint count
(4 points), i.e. NOT "fewer than 2×" — yet the handler falls back to the
external lookup, because the code uses the strict test
`mockRoute.length > waypoints.length * 2`. -/
theorem c8_fallback_threshold_counterexample :
    ¬ ((getRoute [⟨51.49925, -0.1280⟩, ⟨51.50325, -0.1190⟩]).length <
        2 * ([⟨51.49925, -0.1280⟩, ⟨51.50325, -0.1190⟩] : List Coordinate).length) ∧
    routeDecision [⟨51.49925, -0.1280⟩, ⟨51.50325, -0.1190⟩]
      = RouteDecision.fallbackExternal := by
  decide

/-- **C8 (amended)**: for every waypoint list of length at least 2, the
handler answers with the route-graph polyline iff it is strictly richer than
2× the waypoint count, and falls back to the external routing lookup exactly
when the aggregate polyline has **at most** (not: fewer than) 2× the waypoint
count. -/
theorem c8_route_decision_amended (waypoints : List Coordinate)
    (h : 2 ≤ waypoints.length) :
    (routeDecision waypoints = RouteDecision.useMock (getRoute waypoints) ↔
      2 * waypoints.length < (getRoute waypoints).length) ∧
    (routeDecision waypoints = RouteDecision.fallbackExternal ↔
      (getRoute waypoints).length ≤ 2 * waypoints.length) := by
  have h2 : ¬ (waypoints.length < 2) := by omega
  by_cases hgt : waypoints.length * 2 < (getRoute waypoints).length
  · constructor
    · simp [routeDecision, h2, hgt]
      omega
    · simp [routeDecision, h2, hgt]
      omega
  · constructor
    · simp [routeDecision, h2, hgt]
      omega
    · simp [routeDecision, h2, hgt]
      omega

/-- Witness for the amended C8 at the concrete boundary pair. -/
theorem c8_route_decision_amended_witness :
    routeDecision [⟨51.49925, -0.1280⟩, ⟨51.50325, -0.1190⟩]
        = RouteDecision.fallbackExternal ↔
      (getRoute [⟨51.49925, -0.1280⟩, ⟨51.50325, -0.1190⟩]).length ≤
        2 * ([⟨51.49925, -0.1280⟩, ⟨51.50325, -0.1190⟩] : List Coordinate).length :=
  (c8_route_decision_amended [⟨51.49925, -0.1280⟩, ⟨51.50325, -0.1190⟩] (by decide)).2

/-- **C9**: the route-graph caller's `findZoneId` does not use polygon
containment: it returns the id of the first catalog zone whose bounding-box
centroid lies strictly within 0.005 degrees Euclidean distance of the point
(`none` otherwise); and concretely, the point `(51.5035, -0.1605)` is inside
the hydepark polygon by ray casting yet resolves to `none` for routing
(farther than 0.005 from every centroid), forcing the raw two-point fallback
segment in `getRoute`. -/
theorem c9_findZoneId_centroid_proximity :
    (∀ (point : Coordinate) (zid : String),
      findZoneId point = some zid ↔
        ∃ pre z suf, ZONES = pre ++ z :: suf ∧ z.id = zid ∧
          withinProximity point (getCentroid z.polygon) = true ∧
          ∀ w ∈ pre, withinProximity point (getCentroid w.polygon) = false) ∧
    (∀ point : Coordinate, findZoneId point = none ↔
      ∀ z ∈ ZONES, withinProximity point (getCentroid z.polygon) = false) ∧
    isPointInPolygon ⟨51.5035, -0.1605⟩
        [⟨51.5110, -0.1750⟩, ⟨51.5110, -0.1600⟩, ⟨51.5030, -0.1600⟩, ⟨51.5030, -0.1750⟩]
      = true ∧
    determineZone ⟨51.5035, -0.1605⟩ ZONES = some "hydepark" ∧
    findZoneId ⟨51.5035, -0.1605⟩ = none ∧
    getRoute [⟨51.5035, -0.1605⟩, ⟨51.5015, -0.1415⟩]
      = [⟨51.5035, -0.1605⟩, ⟨51.5015, -0.1415⟩] := by
  refine ⟨?_, ?_, by decide, by decide, by decide, by decide⟩
  · intro point zid
    rw [findZoneId, findZoneIdIn_eq_find?, Option.map_eq_some']
    constructor
    · rintro ⟨z, hz, rfl⟩
      rw [List.find?_eq_some] at hz
      obtain ⟨hpz, pre, suf, hzs, hall⟩ := hz
      exact ⟨pre, z, suf, hzs, rfl, by simpa using hpz,
        fun w hw => by simpa using hall w hw⟩
    · rintro ⟨pre, z, suf, hzs, rfl, hin, hpre⟩
      refine ⟨z, List.find?_eq_some.mpr ⟨by simpa using hin, pre, suf, hzs, ?_⟩, rfl⟩
      intro a ha
      simpa using hpre a ha
  · intro point
    rw [findZoneId, findZoneIdIn_eq_find?, Option.map_eq_none', List.find?_eq_none]
    constructor
    · intro h z hz
      simpa using h z hz
    · intro h z hz
      simpa using h z hz

end GeoFence
